import Mathlib

/-!
Shallow embedding of the validation core of the foodmood Django application.

Modelled source files:
- foodmood/edibles/models.py       (Edible.clean, the self-reference check)
- foodmood/edibles/views.py        (quick_create_edible)
- foodmood/wellbeing/models.py     (WellbeingParameter.clean, WellbeingEntry.clean,
                                    WellbeingEntry.clean_catecoric_type,
                                    WellbeingEntry.clean_numeric_type)

Conventions of the embedding:
- Django model instances are Lean structures; users and rows are identified by
  their primary keys (Nat), since Django model equality compares class and pk.
- The JSONField `options` is modelled by the inductive `Json` below, together
  with Python truthiness (`Json.truthy`), the `isinstance(x, list)` test
  (`Json.isList`) and Python equality of a JSON value against a `str`
  (`Json.eqStr`): a Python `str` compares equal only to an equal `str`.
- A Django `DecimalField(null=True)` value is `Option Int`, the integer holding
  the decimal scaled to hundredths (decimal_places=2); validation only ever
  tests it against `None`.
- `clean` methods raise `ValidationError` or return `None`; they are embedded as
  functions into `Except err Unit`.  A `ValidationError` raised with a dict
  `{field: msg}` is field-scoped; one raised with a plain string has no field.
  Each error inductive therefore carries a `field` accessor returning
  `Option String`.
-/

/-- A Python/JSON value as stored in a Django `JSONField`.  Numbers are kept
abstract as integers; the validators never inspect numeric JSON content, only
truthiness, list-ness and string equality. -/
inductive Json where
  | null
  | b (x : Bool)
  | num (x : Int)
  | s (x : String)
  | arr (xs : List Json)
  | obj (kvs : List (String × Json))

/-- Python truthiness of a JSON value (`if not self.options: ...`). -/
def Json.truthy : Json → Bool
  | .null => false
  | .b x => x
  | .num x => x != 0
  | .s x => x != ""
  | .arr xs => !xs.isEmpty
  | .obj kvs => !kvs.isEmpty

/-- Python `isinstance(x, list)`. -/
def Json.isList : Json → Bool
  | .arr _ => true
  | _ => false

/-- Python equality of a JSON value against a `str` value: a `str` compares
equal exactly to an equal `str`, and to no value of another type. -/
def Json.eqStr : Json → String → Bool
  | .s t, v => t == v
  | _, _ => false

/-- The values of `WellbeingParameter.ParameterType` (a Django `TextChoices`);
`WellbeingParameter.type` is a `CharField`, so an arbitrary string. -/
def ParameterType.CATEGORIC : String := "categoric"

/-- The stored value of the numeric choice of `ParameterType`. -/
def ParameterType.NUMERIC : String := "numeric"

/-- Embedding of the `WellbeingParameter` model: the fields read by the
validators, with the owning user as its pk. -/
structure WellbeingParameter where
  user : Nat
  name : String
  type : String
  options : Json
  description : String

/-- Errors raised by `WellbeingParameter.clean`, by constructor. -/
inductive ParamError where
  | missingOptions
  | unexpectedOptions
deriving DecidableEq

/-- The field each `WellbeingParameter.clean` error is attached to: both are
raised as `ValidationError({"options": ...})`. -/
def ParamError.field : ParamError → Option String
  | .missingOptions => some "options"
  | .unexpectedOptions => some "options"

/-- Embedding of `WellbeingParameter.clean` (wellbeing/models.py lines 55-84):
a categoric parameter must have a non-empty list of options (three successive
checks: truthiness, `isinstance(..., list)`, `len(...) == 0`); a numeric
parameter must have falsy options. -/
def WellbeingParameter.clean (p : WellbeingParameter) : Except ParamError Unit :=
  if p.type = ParameterType.CATEGORIC then
    if !p.options.truthy then .error .missingOptions
    else if !p.options.isList then .error .missingOptions
    else
      match p.options with
      | .arr xs => if xs.length = 0 then .error .missingOptions else .ok ()
      | _ => .ok ()
  else if p.type = ParameterType.NUMERIC then
    if p.options.truthy then .error .unexpectedOptions else .ok ()
  else .ok ()

/-- Embedding of the `WellbeingEntry` model: the fields read by `clean`.
`categoric_value` is a blank-able `CharField` (empty string when unset),
`numeric_value` a nullable decimal, `parameter` a nullable foreign key held as
the referenced parameter record. -/
structure WellbeingEntry where
  user : Nat
  parameter : Option WellbeingParameter
  categoric_value : String
  numeric_value : Option Int
  notes : String

/-- Errors raised by `WellbeingEntry.clean` and its two helpers.
`invalidOption` carries the options list it was checked against. -/
inductive EntryError where
  | missingParameter
  | ownershipMismatch
  | missingCategoricValue
  | unexpectedNumericValue
  | invalidOption (allowed : List Json)
  | missingNumericValue
  | unexpectedCategoricValue

/-- The field each `WellbeingEntry` validation error is attached to, read off
the `ValidationError({...})` dict at each raise site. -/
def EntryError.field : EntryError → Option String
  | .missingParameter => some "parameter"
  | .ownershipMismatch => some "parameter"
  | .missingCategoricValue => some "categoric_value"
  | .unexpectedNumericValue => some "numeric_value"
  | .invalidOption _ => some "categoric_value"
  | .missingNumericValue => some "numeric_value"
  | .unexpectedCategoricValue => some "categoric_value"

/-- Embedding of `WellbeingEntry.clean_catecoric_type` (wellbeing/models.py
lines 158-176): requires a truthy `categoric_value`, a null `numeric_value`,
and — whenever the parameter options are a list — membership of the value in
that list (Python `self.categoric_value not in options`). -/
def WellbeingEntry.clean_catecoric_type (e : WellbeingEntry)
    (p : WellbeingParameter) : Except EntryError Unit :=
  if e.categoric_value = "" then .error .missingCategoricValue
  else if e.numeric_value.isSome then .error .unexpectedNumericValue
  else
    match p.options with
    | .arr xs =>
        if !(xs.any (fun j => j.eqStr e.categoric_value)) then
          .error (.invalidOption xs)
        else .ok ()
    | _ => .ok ()

/-- Embedding of `WellbeingEntry.clean_numeric_type` (wellbeing/models.py lines
178-189): requires a non-null `numeric_value` and a falsy `categoric_value`,
in that order. -/
def WellbeingEntry.clean_numeric_type (e : WellbeingEntry) :
    Except EntryError Unit :=
  if e.numeric_value.isNone then .error .missingNumericValue
  else if e.categoric_value ≠ "" then .error .unexpectedCategoricValue
  else .ok ()

/-- Embedding of `WellbeingEntry.clean` (wellbeing/models.py lines 139-156):
parameter must be set, owners must match, then the kind-specific helper runs;
a parameter type matching neither choice triggers no further check. -/
def WellbeingEntry.clean (e : WellbeingEntry) : Except EntryError Unit :=
  match e.parameter with
  | none => .error .missingParameter
  | some p =>
    if p.user ≠ e.user then .error .ownershipMismatch
    else if p.type = ParameterType.CATEGORIC then e.clean_catecoric_type p
    else if p.type = ParameterType.NUMERIC then e.clean_numeric_type
    else .ok ()

/-- The error of `Edible.clean`, raised as `ValidationError("An edible cannot
have itself as ingredient")` — a plain string, hence attached to no field. -/
inductive EdibleError where
  | selfReference
deriving DecidableEq

/-- The field an `Edible.clean` error is attached to: none, since the
`ValidationError` is raised with a message string, not a field dict. -/
def EdibleError.field : EdibleError → Option String
  | .selfReference => none

/-- Embedding of the `Edible` model: pk, unique name, and the many-to-many
`ingredients` relation as the set of related pks (Django model `in` membership
compares by pk). -/
structure Edible where
  id : Nat
  name : String
  ingredients : List Nat

/-- Embedding of `Edible.clean` (edibles/models.py lines 24-27): rejects the
edible exactly when it occurs in its own ingredient set. -/
def Edible.clean (e : Edible) : Except EdibleError Unit :=
  if e.id ∈ e.ingredients then .error .selfReference else .ok ()

/-- A persisted `Edible` row as seen by the quick-create view: pk and name. -/
structure EdibleRow where
  pk : Nat
  name : String
deriving DecidableEq

/-- The JSON responses of `quick_create_edible`: the 400 error, the
`existing: true` hit, and the fresh creation. -/
inductive QuickCreateResponse where
  | badRequest (error : String)
  | okExisting (id : Nat) (name : String)
  | okCreated (id : Nat) (name : String)
deriving DecidableEq

/-- Python `str.strip()`: the string with leading and trailing whitespace
removed, computed on the character list. -/
def pyStrip (s : String) : String :=
  String.mk
    (((s.data.dropWhile Char.isWhitespace).reverse.dropWhile
        Char.isWhitespace).reverse)

/-- Lower-casing on the character list, for case-insensitive comparison. -/
def lowerStr (s : String) : String := String.mk (s.data.map Char.toLower)

/-- Django `name__iexact`: case-insensitive exact string comparison. -/
def iexact (a b : String) : Bool := lowerStr a == lowerStr b

/-- Embedding of `quick_create_edible` (edibles/views.py lines 32-46) over a
database state given as the list of existing rows plus the pk the next insert
would receive.  Returns the JSON response and the new database state. -/
def quick_create_edible (db : List EdibleRow) (nextPk : Nat)
    (rawName : String) : QuickCreateResponse × List EdibleRow :=
  let name := pyStrip rawName
  if name = "" then (.badRequest "Name is required", db)
  else
    match db.find? (fun r => iexact r.name name) with
    | some existing => (.okExisting existing.pk existing.name, db)
    | none => (.okCreated nextPk name, db ++ [⟨nextPk, name⟩])

/-- Modelled from the spec wording of claim C1 (for comparison with the code):
exactly one of the two values is set — the categoric one as a non-empty
string, the numeric one as non-null — and the set one matches the parameter's
kind. -/
def specExactlyOneMatchingKind (e : WellbeingEntry)
    (p : WellbeingParameter) : Prop :=
  (p.type = ParameterType.CATEGORIC ∧ e.categoric_value ≠ "" ∧
    e.numeric_value = none) ∨
  (p.type = ParameterType.NUMERIC ∧ e.numeric_value ≠ none ∧
    e.categoric_value = "")

/-! ## Helper lemmas shared across claims -/

/-- Success condition of the categoric-branch helper: truthy value, null
numeric value, and membership whenever the options are a list. -/
theorem clean_catecoric_type_ok_iff (e : WellbeingEntry)
    (p : WellbeingParameter) :
    e.clean_catecoric_type p = .ok () ↔
      e.categoric_value ≠ "" ∧ e.numeric_value = none ∧
      ∀ xs, p.options = Json.arr xs →
        xs.any (fun j => j.eqStr e.categoric_value) = true := by
  unfold WellbeingEntry.clean_catecoric_type
  by_cases h1 : e.categoric_value = ""
  · simp [h1]
  · cases h2 : e.numeric_value
    · cases h3 : p.options <;> simp [h1, h2]
    · simp [h1, h2]

/-- Success condition of the numeric-branch helper: non-null numeric value and
falsy categoric value. -/
theorem clean_numeric_type_ok_iff (e : WellbeingEntry) :
    e.clean_numeric_type = .ok () ↔
      e.numeric_value ≠ none ∧ e.categoric_value = "" := by
  unfold WellbeingEntry.clean_numeric_type
  cases h2 : e.numeric_value <;>
    by_cases h1 : e.categoric_value = "" <;> simp [h1]

/-- With a set parameter, matching owners and categoric type, `clean` reduces
to the categoric helper. -/
theorem clean_eq_catecoric (e : WellbeingEntry) (p : WellbeingParameter)
    (hp : e.parameter = some p) (hu : p.user = e.user)
    (ht : p.type = ParameterType.CATEGORIC) :
    e.clean = e.clean_catecoric_type p := by
  unfold WellbeingEntry.clean
  rw [hp]
  simp [hu, ht]

/-- With a set parameter, matching owners and numeric type, `clean` reduces to
the numeric helper. -/
theorem clean_eq_numeric (e : WellbeingEntry) (p : WellbeingParameter)
    (hp : e.parameter = some p) (hu : p.user = e.user)
    (ht : p.type = ParameterType.NUMERIC) :
    e.clean = e.clean_numeric_type := by
  unfold WellbeingEntry.clean
  rw [hp]
  simp [hu, ht, ParameterType.CATEGORIC, ParameterType.NUMERIC]

/-! ## Claim theorems -/

/-- Claim C3: `Edible.clean` fails with the self-reference error iff the
edible's own id is in its ingredient set, succeeds for every set not
containing it (the empty set included), and a two-element indirect cycle
(A contains B, B contains A) passes both cleans undetected. -/
theorem C3_self_reference_iff :
    (∀ e : Edible, e.clean = .error .selfReference ↔ e.id ∈ e.ingredients) ∧
    (∀ e : Edible, e.id ∉ e.ingredients → e.clean = .ok ()) ∧
    (∀ a b : Edible, a.id ≠ b.id → a.ingredients = [b.id] →
      b.ingredients = [a.id] → a.clean = .ok () ∧ b.clean = .ok ()) := by
  refine ⟨fun e => ?_, fun e h => ?_, fun a b hne ha hb => ⟨?_, ?_⟩⟩
  · unfold Edible.clean
    by_cases h : e.id ∈ e.ingredients <;> simp [h]
  · unfold Edible.clean
    simp [h]
  · unfold Edible.clean
    simp [ha, hne]
  · unfold Edible.clean
    simp [hb, Ne.symm hne]

/-- Witness for C3: the indirect two-hop cycle between edibles 1 and 2 passes
validation on both sides. -/
theorem C3_self_reference_iff_witness :
    (Edible.mk 1 "Dressing" [2]).clean = .ok () ∧
    (Edible.mk 2 "Oil" [1]).clean = .ok () :=
  C3_self_reference_iff.2.2 (Edible.mk 1 "Dressing" [2])
    (Edible.mk 2 "Oil" [1]) (by decide) rfl rfl

/-- Claim C4: a null parameter fails with the missing-parameter error, and a
set parameter owned by a different user fails with the ownership error
regardless of the entry's values. -/
theorem C4_ownership (e : WellbeingEntry) :
    (e.parameter = none → e.clean = .error .missingParameter) ∧
    (∀ p, e.parameter = some p → p.user ≠ e.user →
      e.clean = .error .ownershipMismatch) := by
  constructor
  · intro h
    unfold WellbeingEntry.clean
    rw [h]
  · intro p hp hu
    unfold WellbeingEntry.clean
    rw [hp]
    simp [hu]

/-- Witness for C4: an entry of user 1 against a parameter of user 2 is
rejected for ownership even though its categoric value is valid. -/
theorem C4_ownership_witness :
    (WellbeingEntry.mk 1
      (some (WellbeingParameter.mk 2 "Mood" "categoric"
        (Json.arr [Json.s "Happy"]) "")) "Happy" none "").clean
      = .error .ownershipMismatch :=
  (C4_ownership _).2 _ rfl (by decide)

/-- Claim C8: a parameter whose type string is neither choice triggers no
value-shape check: with the parameter set and owners equal, `clean` succeeds
whatever the values. -/
theorem C8_unknown_type_skips_value_checks (e : WellbeingEntry)
    (p : WellbeingParameter) (hp : e.parameter = some p) (hu : p.user = e.user)
    (h1 : p.type ≠ ParameterType.CATEGORIC)
    (h2 : p.type ≠ ParameterType.NUMERIC) :
    e.clean = .ok () := by
  unfold WellbeingEntry.clean
  rw [hp]
  simp [hu, h1, h2]

/-- Witness for C8: a parameter of type "boolean" accepts an entry with both a
categoric and a numeric value set. -/
theorem C8_unknown_type_skips_value_checks_witness :
    (WellbeingEntry.mk 1
      (some (WellbeingParameter.mk 1 "Flag" "boolean" Json.null "")) "yes"
      (some 100) "").clean = .ok () :=
  C8_unknown_type_skips_value_checks _ _ rfl rfl (by decide) (by decide)

/-- Claim C5: a categoric parameter passes `clean` exactly when its options
are a non-empty JSON list, failing with the missing-options error otherwise;
a numeric parameter fails with the unexpected-options error exactly when its
options are truthy. -/
theorem C5_parameter_definition (p : WellbeingParameter) :
    (p.type = ParameterType.CATEGORIC →
      ((p.clean = .ok () ↔ ∃ xs, p.options = Json.arr xs ∧ xs ≠ []) ∧
       (p.clean ≠ .ok () → p.clean = .error .missingOptions))) ∧
    (p.type = ParameterType.NUMERIC →
      ((p.clean = .ok () ↔ p.options.truthy = false) ∧
       (p.options.truthy = true → p.clean = .error .unexpectedOptions))) := by
  unfold WellbeingParameter.clean
  constructor
  · intro ht
    rw [ht]
    cases h3 : p.options <;>
      simp [ParameterType.CATEGORIC, Json.truthy, Json.isList]
    rename_i xs
    cases xs <;> simp
  · intro ht
    rw [ht]
    simp [ParameterType.CATEGORIC, ParameterType.NUMERIC]

/-- Witness for C5: the categoric parameter with options ["Low","High"]
passes, and the numeric parameter with options ["1","2"] is rejected with the
unexpected-options error. -/
theorem C5_parameter_definition_witness :
    (WellbeingParameter.mk 1 "Mood" "categoric"
      (Json.arr [Json.s "Low", Json.s "High"]) "").clean = .ok () ∧
    (WellbeingParameter.mk 1 "Energy" "numeric"
      (Json.arr [Json.s "1", Json.s "2"]) "").clean
      = .error .unexpectedOptions :=
  ⟨((C5_parameter_definition _).1 rfl).1.mpr
      ⟨[Json.s "Low", Json.s "High"], rfl, by simp⟩,
   ((C5_parameter_definition _).2 rfl).2 (by decide)⟩

/-- Claim C6: on a numeric parameter with matching owners, a null numeric
value fails with the missing-numeric-value error whatever the categoric value,
a set numeric value with a non-empty categoric value fails with the
unexpected-categoric-value error, and a set numeric value with an empty
categoric value is accepted. -/
theorem C6_numeric_entry_checks (e : WellbeingEntry) (p : WellbeingParameter)
    (hp : e.parameter = some p) (hu : p.user = e.user)
    (ht : p.type = ParameterType.NUMERIC) :
    (e.numeric_value = none → e.clean = .error .missingNumericValue) ∧
    (∀ v, e.numeric_value = some v → e.categoric_value ≠ "" →
      e.clean = .error .unexpectedCategoricValue) ∧
    (∀ v, e.numeric_value = some v → e.categoric_value = "" →
      e.clean = .ok ()) := by
  rw [clean_eq_numeric e p hp hu ht]
  unfold WellbeingEntry.clean_numeric_type
  refine ⟨fun h => ?_, fun v h hc => ?_, fun v h hc => ?_⟩
  · simp [h]
  · simp [h, hc]
  · simp [h, hc]

/-- Witness for C6: the entry with categoric value "High" and no numeric value
on a numeric parameter is rejected for the missing numeric value. -/
theorem C6_numeric_entry_checks_witness :
    (WellbeingEntry.mk 1
      (some (WellbeingParameter.mk 1 "Energy Level" "numeric" Json.null ""))
      "High" none "").clean = .error .missingNumericValue :=
  (C6_numeric_entry_checks _ _ rfl rfl rfl).1 rfl

/-- Claim C9: for a categoric parameter with matching owners and a shape-valid
entry, when the options are a JSON list the entry passes iff some element is a
string exactly equal to the categoric value (`Json.eqStr` is case-sensitive
string equality), failing with the invalid-option error otherwise; when the
options are not a list the membership check is skipped and the entry passes. -/
theorem C9_option_membership_exact (e : WellbeingEntry)
    (p : WellbeingParameter) (hp : e.parameter = some p) (hu : p.user = e.user)
    (ht : p.type = ParameterType.CATEGORIC)
    (hc : e.categoric_value ≠ "") (hn : e.numeric_value = none) :
    (∀ xs, p.options = Json.arr xs →
      ((e.clean = .ok () ↔
          xs.any (fun j => j.eqStr e.categoric_value) = true) ∧
       (xs.any (fun j => j.eqStr e.categoric_value) = false →
          e.clean = .error (.invalidOption xs)))) ∧
    (p.options.isList = false → e.clean = .ok ()) := by
  rw [clean_eq_catecoric e p hp hu ht]
  unfold WellbeingEntry.clean_catecoric_type
  constructor
  · intro xs hxs
    rw [hxs]
    by_cases h4 : xs.any (fun j => j.eqStr e.categoric_value) = true <;>
      simp [hc, hn, h4]
  · intro hL
    cases h3 : p.options
    case arr xs =>
      rw [h3] at hL
      simp [Json.isList] at hL
    all_goals simp [hc, hn]

/-- Witness for C9: against options ["Happy"], the lower-cased value "happy"
is rejected with the invalid-option error. -/
theorem C9_option_membership_exact_witness :
    (WellbeingEntry.mk 1
      (some (WellbeingParameter.mk 1 "Mood" "categoric"
        (Json.arr [Json.s "Happy"]) "")) "happy" none "").clean
      = .error (.invalidOption [Json.s "Happy"]) :=
  ((C9_option_membership_exact _ _ rfl rfl rfl (by decide) rfl).1
    [Json.s "Happy"] rfl).2 (by decide)

/-- Counterexample to claim C1 as stated: an entry whose owners match, whose
categoric value alone is set matching the categoric kind, is nevertheless
rejected (invalid-option), because option membership also decides success. -/
theorem C1_counterexample :
    (WellbeingEntry.mk 1
      (some (WellbeingParameter.mk 1 "Mood" "categoric"
        (Json.arr [Json.s "Happy"]) "")) "Sad" none "").parameter
      = some (WellbeingParameter.mk 1 "Mood" "categoric"
        (Json.arr [Json.s "Happy"]) "") ∧
    (1 : Nat) = 1 ∧
    specExactlyOneMatchingKind
      (WellbeingEntry.mk 1
        (some (WellbeingParameter.mk 1 "Mood" "categoric"
          (Json.arr [Json.s "Happy"]) "")) "Sad" none "")
      (WellbeingParameter.mk 1 "Mood" "categoric"
        (Json.arr [Json.s "Happy"]) "") ∧
    (WellbeingEntry.mk 1
      (some (WellbeingParameter.mk 1 "Mood" "categoric"
        (Json.arr [Json.s "Happy"]) "")) "Sad" none "").clean
      = .error (.invalidOption [Json.s "Happy"]) :=
  ⟨rfl, rfl, Or.inl ⟨rfl, by decide, rfl⟩, rfl⟩

/-- Claim C1 (amended): with owners matching and the parameter type one of the
two declared choices, `clean` succeeds iff exactly one value is set matching
the parameter's kind and, when the kind is categoric and the options are a
JSON list, the categoric value is a member of that list. -/
theorem C1_entry_shape_iff (e : WellbeingEntry) (p : WellbeingParameter)
    (hp : e.parameter = some p) (hu : p.user = e.user)
    (hk : p.type = ParameterType.CATEGORIC ∨
          p.type = ParameterType.NUMERIC) :
    e.clean = .ok () ↔
      (specExactlyOneMatchingKind e p ∧
       (p.type = ParameterType.CATEGORIC →
         ∀ xs, p.options = Json.arr xs →
           xs.any (fun j => j.eqStr e.categoric_value) = true)) := by
  rcases hk with ht | ht
  · rw [clean_eq_catecoric e p hp hu ht, clean_catecoric_type_ok_iff]
    simp only [specExactlyOneMatchingKind, ht, ParameterType.CATEGORIC,
      ParameterType.NUMERIC]
    simp
    tauto
  · rw [clean_eq_numeric e p hp hu ht, clean_numeric_type_ok_iff]
    simp only [specExactlyOneMatchingKind, ht, ParameterType.CATEGORIC,
      ParameterType.NUMERIC]
    simp

/-- Witness for C1: a numeric entry with only the numeric value set passes. -/
theorem C1_entry_shape_iff_witness :
    (WellbeingEntry.mk 1
      (some (WellbeingParameter.mk 1 "Energy" "numeric" Json.null ""))
      "" (some 750) "").clean = .ok () :=
  (C1_entry_shape_iff _ _ rfl rfl (Or.inr rfl)).mpr
    ⟨Or.inr ⟨rfl, by decide, rfl⟩, fun h => absurd h (by decide)⟩

/-- Counterexample to claim C2 as stated: with an empty options list, the
membership check is not skipped — every categoric value is rejected with the
invalid-option error, where the claim promises success. -/
theorem C2_counterexample :
    (WellbeingEntry.mk 1
      (some (WellbeingParameter.mk 1 "Mood" "categoric" (Json.arr []) ""))
      "Happy" none "").clean = .error (.invalidOption []) := rfl

/-- Claim C2 (amended): for a categoric parameter with matching owners and a
shape-valid entry, whenever the options are a JSON list (the empty list
included) the invalid-option error is raised iff the value is not a member;
the check is skipped only when the options are not a list; in particular an
empty options list rejects every value. -/
theorem C2_option_check (e : WellbeingEntry) (p : WellbeingParameter)
    (hp : e.parameter = some p) (hu : p.user = e.user)
    (ht : p.type = ParameterType.CATEGORIC)
    (hc : e.categoric_value ≠ "") (hn : e.numeric_value = none) :
    (∀ xs, p.options = Json.arr xs →
      (e.clean = .error (.invalidOption xs) ↔
        xs.any (fun j => j.eqStr e.categoric_value) = false)) ∧
    (p.options.isList = false → e.clean = .ok ()) ∧
    (p.options = Json.arr [] → e.clean = .error (.invalidOption [])) := by
  rw [clean_eq_catecoric e p hp hu ht]
  unfold WellbeingEntry.clean_catecoric_type
  refine ⟨fun xs hxs => ?_, fun hL => ?_, fun hxs => ?_⟩
  · rw [hxs]
    by_cases h4 : xs.any (fun j => j.eqStr e.categoric_value) = true <;>
      simp [hc, hn, h4]
  · cases h3 : p.options
    case arr xs =>
      rw [h3] at hL
      simp [Json.isList] at hL
    all_goals simp [hc, hn]
  · rw [hxs]
    simp [hc, hn]

/-- Witness for C2: against options ["Happy","Neutral","Sad"], the value
"Excited" is rejected with the invalid-option error. -/
theorem C2_option_check_witness :
    (WellbeingEntry.mk 1
      (some (WellbeingParameter.mk 1 "Mood" "categoric"
        (Json.arr [Json.s "Happy", Json.s "Neutral", Json.s "Sad"]) ""))
      "Excited" none "").clean
      = .error (.invalidOption
          [Json.s "Happy", Json.s "Neutral", Json.s "Sad"]) :=
  ((C2_option_check _ _ rfl rfl rfl (by decide) rfl).1 _ rfl).mpr (by decide)

/-- Counterexample to claim C7 as stated: the self-reference failure of
`Edible.clean` is raised as a plain message and is attached to no field. -/
theorem C7_counterexample :
    (Edible.mk 1 "Bread" [1]).clean = .error .selfReference ∧
    EdibleError.field .selfReference = none := ⟨rfl, rfl⟩

/-- Claim C7 (amended): the validators are pure functions of their inputs, and
every wellbeing validation failure (entry or parameter) is attached to a named
field; the edible self-reference failure alone carries no field. -/
theorem C7_field_scoped_errors :
    (∀ (e : WellbeingEntry) (err : EntryError),
      e.clean = .error err → (EntryError.field err).isSome = true) ∧
    (∀ (p : WellbeingParameter) (err : ParamError),
      p.clean = .error err → (ParamError.field err).isSome = true) := by
  constructor
  · intro e err _
    cases err <;> simp [EntryError.field]
  · intro p err _
    cases err <;> simp [ParamError.field]

/-- Witness for C7: the missing-parameter failure of the entry with no
parameter is attached to a field. -/
theorem C7_field_scoped_errors_witness :
    (EntryError.field .missingParameter).isSome = true :=
  C7_field_scoped_errors.1 (WellbeingEntry.mk 1 none "" none "")
    .missingParameter rfl

/-- Claim C10: quick-create rejects a name empty after stripping without
touching the database; with a non-empty stripped name matching an existing row
case-insensitively it returns that row unchanged and creates nothing;
otherwise it appends exactly one new row carrying the stripped name. -/
theorem C10_quick_create (db : List EdibleRow) (nextPk : Nat)
    (rawName : String) :
    (pyStrip rawName = "" →
      (∃ msg, (quick_create_edible db nextPk rawName).1
        = .badRequest msg) ∧
      (quick_create_edible db nextPk rawName).2 = db) ∧
    (pyStrip rawName ≠ "" →
      (∃ r ∈ db, iexact r.name (pyStrip rawName) = true) →
      (∃ r ∈ db, iexact r.name (pyStrip rawName) = true ∧
        (quick_create_edible db nextPk rawName).1
          = .okExisting r.pk r.name) ∧
      (quick_create_edible db nextPk rawName).2 = db) ∧
    (pyStrip rawName ≠ "" →
      (∀ r ∈ db, iexact r.name (pyStrip rawName) = false) →
      (quick_create_edible db nextPk rawName).1
        = .okCreated nextPk (pyStrip rawName) ∧
      (quick_create_edible db nextPk rawName).2
        = db ++ [EdibleRow.mk nextPk (pyStrip rawName)]) := by
  refine ⟨fun h => ?_, fun h hex => ?_, fun h hall => ?_⟩
  · simp [quick_create_edible, h]
  · have hs : (db.find? (fun r => iexact r.name (pyStrip rawName))).isSome := by
      rw [List.find?_isSome]
      exact hex
    obtain ⟨r, hr⟩ := Option.isSome_iff_exists.mp hs
    have hmem : r ∈ db := List.mem_of_find?_eq_some hr
    have hpr := List.find?_some hr
    refine ⟨⟨r, hmem, hpr, ?_⟩, ?_⟩ <;>
      simp [quick_create_edible, h, hr]
  · have hn : db.find? (fun r => iexact r.name (pyStrip rawName)) = none := by
      rw [List.find?_eq_none]
      simpa using hall
    simp [quick_create_edible, h, hn]

/-- Witness for C10: posting " apple " against a database holding "Apple"
leaves the database unchanged. -/
theorem C10_quick_create_witness :
    (quick_create_edible [EdibleRow.mk 1 "Apple"] 2 " apple ").2
      = [EdibleRow.mk 1 "Apple"] :=
  ((C10_quick_create [EdibleRow.mk 1 "Apple"] 2 " apple ").2.1 (by decide)
    ⟨EdibleRow.mk 1 "Apple", by simp, by decide⟩).2
